import Mathlib

/-!
# Verification of the `info` profile-card component (`src/info/views.py`)

Shallow embedding of the state machine and pure algorithms of the
interactive user-info component: the role-list truncating formatter
(`UIView._format_roles` / `UIView._get_roles`), the select-option
discovery (`UISelect.__init__` / `UISelect.release` / `UISelect.close`),
interaction authorization (`UIView.interaction_check`), the memoized home
embed (`UIView._make_embed`) and timeout cleanup (`UIView.on_timeout`).

Python strings are modelled as Lean `String` (Python `len` counts code
points, as does `String.length`), Python `int` as `Nat` where the source
only ever holds non-negative values and as `Int` for timestamps, Python
`None` / `discord.utils.MISSING` as `Option.none`, and a fire-and-forget
`asyncio` task as an explicit sequential process whose unretrieved
exception is contained at the task boundary.
-/

namespace Info

/-- Python `", ".join(roles)` (also used with other separators):
empty result on the empty list, no trailing separator. -/
def joinSep (sep : String) : List String → String
  | [] => ""
  | [x] => x
  | x :: y :: xs => x ++ sep ++ joinSep sep (y :: xs)

/-- A guild role as `_get_roles` consumes it: only its display mention
matters to the formatter. -/
structure Role where
  mention : String
deriving DecidableEq, Repr

/-- `UIView._get_roles` (views.py:111-115): reverse the member's role list,
drop the last element (the implicit everyone role, which `member.roles`
lists first), and return the mentions, or `None` when nothing is left. -/
def _get_roles (memberRoles : List Role) : Option (List String) :=
  let roles := memberRoles.reverse.dropLast
  if roles.isEmpty then none else some (roles.map Role.mention)

/-- The overflow summary template of `_format_roles` (views.py:199),
whose length — placeholder included — is reserved from the budget. -/
def overflowTemplate : String :=
  "and {number} more roles not displayed due to embed limits."

/-- `formatted.format(number=remaining)` (views.py:211): the template with
the final overflow count substituted for the placeholder. -/
def overflowLine (number : Nat) : String :=
  "and " ++ toString number ++ " more roles not displayed due to embed limits."

/-- The `for r in roles` loop of `_format_roles` (views.py:203-210):
each role becomes the chunk `r ++ "\n"`; a chunk is appended when its
length is strictly below the remaining availability (which it then
consumes), otherwise the role is counted in `remaining`. Returns the
final `(chunks, remaining)`. -/
def truncLoop : List String → Nat → List String → Nat → List String × Nat
  | [], _, chunks, remaining => (chunks, remaining)
  | r :: rs, available, chunks, remaining =>
      let chunk := r ++ "\n"
      let size := chunk.length
      if size < available then
        truncLoop rs (available - size) (chunks ++ [chunk]) remaining
      else
        truncLoop rs available chunks (remaining + 1)

/-- Body of `_format_roles` for a non-`None` role list (views.py:197-212):
join with `", "`; when the join exceeds 4000 characters run the
truncation loop with `available_length = 4000 - len(template)` and return
the accepted chunks followed by the summary line, else return the plain
join. -/
def formatRolesList (roles : List String) : String :=
  let string := joinSep ", " roles
  if string.length > 4000 then
    let available_length := 4000 - overflowTemplate.length
    let res := truncLoop roles available_length [] 0
    String.join (res.1 ++ [overflowLine res.2])
  else
    string

/-- `UIView._format_roles` (views.py:194-215): `None` (= MISSING) when
`_get_roles` yields nothing, otherwise the formatted role string. -/
def _format_roles (memberRoles : List Role) : Option String :=
  match _get_roles memberRoles with
  | some roles => some (formatRolesList roles)
  | none => none

/-! ## Select options and background discovery (`UISelect`) -/

/-- The `Cache` collaborator as `UISelect` consumes it: an opaque mapping
from a page key to the emoji shown on its option. -/
structure Cache where
  getSelectEmoji : String → String

/-- One entry of the select menu: the fields `UISelect` passes to
`discord.SelectOption`. -/
structure SelectOption where
  label : String
  emoji : String
  value : String
  description : String
  default : Bool := false
deriving DecidableEq, Repr

/-- The Home option (views.py:22-28). -/
def homeOption (cache : Cache) : SelectOption :=
  { label := "Home", emoji := cache.getSelectEmoji "home", value := "home",
    description := "General info, join dates, badges, status, etc...", default := true }

/-- The Avatar option (views.py:29-34). -/
def avatarOption (cache : Cache) : SelectOption :=
  { label := "Avatar", emoji := cache.getSelectEmoji "avatar", value := "avatar",
    description := "View the user's global avatar..." }

/-- The Roles option (views.py:38-45). -/
def rolesOption (cache : Cache) : SelectOption :=
  { label := "Roles", emoji := cache.getSelectEmoji "roles", value := "roles",
    description := "View the user's roles.." }

/-- The Guild Avatar option, labelled "Guid Avatar" in the source
(views.py:61-68). -/
def gavatarOption (cache : Cache) : SelectOption :=
  { label := "Guid Avatar", emoji := cache.getSelectEmoji "gavatar", value := "gavatar",
    description := "View the user's guild avatar..." }

/-- The Banner option (views.py:70-78). -/
def bannerOption (cache : Cache) : SelectOption :=
  { label := "Banner", emoji := cache.getSelectEmoji "banner", value := "banner",
    description := "View the user's banner..." }

/-- The option list at the end of `UISelect.__init__` (views.py:21-52):
Home and Avatar always, then Roles when `_get_roles` is non-`None`.
`asyncio.create_task(self.release())` is created in between, but the task
first runs at the next event-loop step, after `__init__` has returned, so
no `release` append precedes these. -/
def initOptions (cache : Cache) (memberRoles : List Role) : List SelectOption :=
  [homeOption cache, avatarOption cache]
    ++ if (_get_roles memberRoles).isSome then [rolesOption cache] else []

/-- The user object returned by `bot.fetch_user`: only its banner matters
to `release`. -/
structure FetchedUser where
  banner : Option String
deriving DecidableEq, Repr

/-- First half of `UISelect.release` (views.py:60-68), up to the first
suspension point: append Guild Avatar when the cached member snapshot has
a guild-specific avatar. -/
def releaseStep1 (cache : Cache) (opts : List SelectOption)
    (guildAvatar : Option String) : List SelectOption :=
  opts ++ if guildAvatar.isSome then [gavatarOption cache] else []

/-- Whole of `UISelect.release` (views.py:59-78): after the Guild Avatar
step, `await bot.fetch_user` either returns a fresh user — Banner is
appended when it has one — or raises, in which case the rest of the
coroutine never runs and the option list stays as `releaseStep1` left it. -/
def releaseOptions (cache : Cache) (opts : List SelectOption)
    (guildAvatar : Option String) (fetch : Except String FetchedUser) :
    List SelectOption :=
  let opts₁ := releaseStep1 cache opts guildAvatar
  match fetch with
  | .ok fetched => opts₁ ++ if fetched.banner.isSome then [bannerOption cache] else []
  | .error _ => opts₁

/-- Whether the awaited `fetch_user` produced a user with a banner. -/
def bannerPresent : Except String FetchedUser → Bool
  | .ok fetched => fetched.banner.isSome
  | .error _ => false

/-- The fire-and-forget task boundary: `release` runs inside
`asyncio.create_task(...)` (views.py:36) and its result is never
retrieved, so an exception escaping `release` is held by the task object:
it is not re-raised into the component, aborts nothing, and no error
message reaches the user.  Returns (final option list, error surfaced to
the user, component aborted). -/
def runDiscoveryTask (cache : Cache) (opts : List SelectOption)
    (guildAvatar : Option String) (fetch : Except String FetchedUser) :
    List SelectOption × Option String × Bool :=
  (releaseOptions cache opts guildAvatar fetch, none, false)

/-! ## The home embed (`UIView._make_embed`) -/

/-- One `embed.add_field` entry; `discord.Embed.add_field` defaults
`inline` to true. -/
structure EmbedField where
  name : String
  value : String
  inline : Bool := true
deriving DecidableEq, Repr

/-- The display payload `_make_embed` builds. -/
structure Embed where
  title : String
  description : String
  color : Nat
  fields : List EmbedField
  footer : String
  thumbnail : String
deriving DecidableEq, Repr

/-- A voice channel, as the field "{0.mention} ID: {0.id}" consumes it. -/
structure VoiceChannel where
  mention : String
  id : Nat
deriving DecidableEq, Repr

/-- `member.voice`: a voice state whose channel may be unset. -/
structure VoiceState where
  channel : Option VoiceChannel
deriving DecidableEq, Repr

/-- A guild member as the join-order rank computation consumes it. -/
structure GuildMember where
  id : Nat
  joinedAt : Option Int
deriving DecidableEq, Repr

/-- The fields `_make_embed` reads from `self.user`, the guild and the
context.  Timestamps are the integer Unix seconds the source obtains via
`int(....timestamp())`. -/
structure MemberSnapshot where
  id : Nat
  str : String
  displayName : String
  nick : Option String
  color : Nat
  createdAt : Int
  joinedAt : Option Int
  sharedGuildCount : Nat
  guildMembers : List GuildMember
  refTimestamp : Int
  voice : Option VoiceState
  displayAvatarUrl : String
deriving DecidableEq, Repr

/-- Results of the collaborator calls `_make_embed` awaits or reads:
`mod.get_names` (`None`-like MISSING modelled as `none`),
`bot.intents.presences`, `cache.get_member_device_status`,
`mod.get_status_string` (falsy when empty), `cache.get_user_badges`
(falsy when empty) and `cache.get_special_badges`. -/
structure HomeData where
  user : MemberSnapshot
  names : Option (List String)
  nicks : Option (List String)
  presencesIntent : Bool
  deviceMobile : String
  deviceWeb : String
  deviceDesktop : String
  statusString : String
  badges : String
  badgeCount : Nat
  specialBadges : List String

/-- Sort key of views.py:252: `m.joined_at or self.ctx.message.created_at`. -/
def joinSortKey (ref : Int) (m : GuildMember) : Int :=
  m.joinedAt.getD ref

/-- views.py:250-255: 1-based index of the user in the member list sorted
by join time (Python `sorted` is a stable sort; `.index` finds the first
member equal to the user, i.e. with the user's id). -/
def memberPosition (ref : Int) (members : List GuildMember) (uid : Nat) : Nat :=
  ((members.mergeSort fun a b => joinSortKey ref a ≤ joinSortKey ref b).findIdx
      fun m => m.id == uid) + 1

/-- The embed construction of `_make_embed` (views.py:220-306), run when
the cache is empty.  `filterInvites` is `redbot`'s `filter_invites`
helper, an external collaborator.  Note the source's operator precedence
at views.py:269-274: `description + A if cond else B` parses as
`(description + A) if cond else B`, so with a single shared server the
status/device description is dropped from the embed. -/
def computeHomeEmbed (filterInvites : String → String) (d : HomeData) : Embed :=
  let u := d.user
  let since_created := "<t:" ++ toString u.createdAt ++ ":R>"
  let joinedPair :=
    match u.joinedAt with
    | some j => ("<t:" ++ toString j ++ ":R>", "<t:" ++ toString j ++ ">")
    | none => ("?", "Unknown")
  let since_joined := joinedPair.1
  let user_joined := joinedPair.2
  let user_created := "<t:" ++ toString u.createdAt ++ ">"
  let position := memberPosition u.refTimestamp u.guildMembers u.id
  let created_on := user_created ++ "\n( " ++ since_created ++ " )\n"
  let joined_on := user_joined ++ "\n( " ++ since_joined ++ " )\n"
  let description :=
    if d.presencesIntent then
      if d.statusString ≠ "" then
        d.statusString ++ "\n**Devices:** " ++ d.deviceMobile ++ " " ++ d.deviceWeb ++ " "
          ++ d.deviceDesktop ++ "\n\n"
      else
        d.deviceMobile ++ " " ++ d.deviceWeb ++ " " ++ d.deviceDesktop ++ "\n\n"
    else ""
  let embedDescription :=
    if u.sharedGuildCount > 1 then
      description ++ "**Shared Servers: " ++ toString u.sharedGuildCount ++ "**"
    else
      "**Shared Server: " ++ toString u.sharedGuildCount ++ "**"
  let fields : List EmbedField :=
    [{ name := "Joined Discord on:", value := created_on },
     { name := "Joined this Server on:", value := joined_on }]
    ++ (match d.names with
        | some ns =>
            [{ name := "Previous Names:", value := filterInvites (joinSep ", " ns),
               inline := false }]
        | none => [])
    ++ (match d.nicks with
        | some ns =>
            [{ name := "Previous Nicknames:", value := filterInvites (joinSep ", " ns),
               inline := false }]
        | none => [])
    ++ (match u.voice with
        | some v =>
            match v.channel with
            | some ch =>
                [{ name := "Current Voice Channel:",
                   value := ch.mention ++ " ID: " ++ toString ch.id, inline := false }]
            | none => []
        | none => [])
    ++ (if d.badges ≠ "" then
          [{ name := if d.badgeCount > 1 then "Badges:" else "Badge:", value := d.badges,
             inline := false }]
        else [])
    ++ (if d.specialBadges ≠ [] then
          [{ name := if d.specialBadges.length > 1 then "Special Badges:" else "Special Badge:",
             value := joinSep "\n" d.specialBadges, inline := false }]
        else [])
  { title := match u.nick with
             | some n => u.str ++ " ~ " ++ n
             | none => u.displayName
    description := embedDescription
    color := u.color
    fields := fields
    footer := "Member #" ++ toString position ++ " | User ID: " ++ toString u.id
    thumbnail := u.displayAvatarUrl }

/-! ## The component state machine (`UIView`) -/

/-- A child item of the view as `on_timeout` sees it: whether it has a
`disabled` attribute, and that attribute's value. -/
structure Control where
  hasDisabledAttr : Bool
  disabled : Bool
deriving DecidableEq, Repr

/-- The mutable state of one `UIView` instance touched by authorization,
timeout and the home-embed cache: the requesting author's id
(`ctx.author.id`), the child items, whether `UISelect.close` has
cancelled the discovery task, whether `self._message` has been set, and
the `self.embed` cache (`MISSING` = `none`). -/
structure UIViewState where
  authorId : Nat
  children : List Control
  discoveryCancelled : Bool
  messageSet : Bool
  homeEmbed : Option Embed
deriving DecidableEq, Repr

/-- `UISelect.close` (views.py:55-57): cancel the discovery task.
Idempotent. -/
def close (s : UIViewState) : UIViewState :=
  { s with discoveryCancelled := true }

/-- An ephemeral text response sent through
`interaction.response.send_message`. -/
structure EphemeralMessage where
  content : String
  ephemeral : Bool
deriving DecidableEq, Repr

/-- `UIView.interaction_check` (views.py:185-192), the gate the host runs
before dispatching an interaction to the select's callback: when the
interacting user is not `ctx.author`, send an ephemeral denial, cancel
the discovery task and return false (the callback never runs); otherwise
return true and leave the state untouched.  Result: (response sent,
check outcome, state after). -/
def interaction_check (s : UIViewState) (interactionUserId : Nat) :
    Option EphemeralMessage × Bool × UIViewState :=
  if s.authorId ≠ interactionUserId then
    (some { content := "You're not the author of this message.", ephemeral := true },
     false, close s)
  else
    (none, true, s)

/-- `UIView._make_embed` (views.py:217-308): return the cached embed when
`self.embed` is not MISSING, else build the embed from the data read at
call time and cache it before returning it. -/
def _make_embed (s : UIViewState) (filterInvites : String → String) (d : HomeData) :
    Embed × UIViewState :=
  match s.homeEmbed with
  | some e => (e, s)
  | none =>
      let e := computeHomeEmbed filterInvites d
      (e, { s with homeEmbed := some e })

/-- Outcome of the `self._message.edit(view=self)` call in `on_timeout`. -/
inductive EditOutcome
  | success
  | httpError
deriving DecidableEq, Repr

/-- The message edit as an opaque fallible collaborator call. -/
def messageEdit : EditOutcome → Except String Unit
  | .success => .ok ()
  | .httpError => .error "HTTPException"

/-- `UIView.on_timeout` (views.py:175-183): set `disabled` on every child
that has that attribute, attempt the message edit only when
`self._message` was set — with `contextlib.suppress(discord.HTTPException)`
swallowing its failure — and finally cancel the discovery task.  Result:
(state after, whether the edit was attempted, exception escaping
`on_timeout`). -/
def on_timeout (s : UIViewState) (edit : EditOutcome) :
    UIViewState × Bool × Option String :=
  let disabledChildren :=
    s.children.map fun c => if c.hasDisabledAttr then { c with disabled := true } else c
  let s₁ := { s with children := disabledChildren }
  let editAttempted := s₁.messageSet
  let escaping : Option String :=
    if editAttempted then
      match messageEdit edit with
      | .error _ => none
      | .ok _ => none
    else none
  (close s₁, editAttempted, escaping)

/-- Total character count of a list of strings (length of their
concatenation). -/
def sumLen (l : List String) : Nat :=
  (l.map String.length).sum

/-- Concrete input for the budget-overshoot counterexample: one role of
3940 characters followed by one billion single-character roles, so that
the truncation loop accepts exactly the first chunk (3941 of the 3942
available characters) and counts 10^9 omitted roles — a ten-digit
overflow count where the reserved template assumed eight digits. -/
def c1Roles : List String :=
  String.mk (List.replicate 3940 'a') :: List.replicate 1000000000 "a"

/-- Concrete input refuting the prefix reading of the truncation loop:
the joined string exceeds 4000, the 4000-character first role is
rejected, and the later one-character role is still appended. -/
def c4Roles : List String :=
  [String.mk (List.replicate 4000 'a'), "b"]

/-- Concrete input where truncation triggers with nothing omitted: 1001
two-character roles join to 4002 > 4000 characters with `", "`, yet all
1001 newline chunks (3003 characters) fit the 3942 reserved budget, so
the summary line reports 0 omitted roles. -/
def c10Roles : List String :=
  List.replicate 1001 "ab"

/-- A concrete component state: requester id 1, one enabled select
control, discovery running, message sent, home embed not yet cached. -/
def c2State : UIViewState :=
  { authorId := 1, children := [{ hasDisabledAttr := true, disabled := false }],
    discoveryCancelled := false, messageSet := true, homeEmbed := none }

/-- A concrete cache collaborator with blank emojis, for witnesses. -/
def trivialCache : Cache :=
  { getSelectEmoji := fun _ => "" }

end Info

namespace Info

/-! ## Helper lemmas -/

theorem sumLen_append (l₁ l₂ : List String) :
    sumLen (l₁ ++ l₂) = sumLen l₁ + sumLen l₂ := by
  simp [sumLen]

theorem foldl_append_length (l : List String) :
    ∀ init : String, (l.foldl (fun r s => r ++ s) init).length = init.length + sumLen l := by
  induction l with
  | nil => intro init; simp [sumLen]
  | cons x xs ih =>
      intro init
      simp [List.foldl_cons, ih, sumLen, String.length_append]
      omega

theorem join_length (l : List String) : (String.join l).length = sumLen l := by
  simpa [String.join] using foldl_append_length l ""

theorem join_append_one (l : List String) (x : String) :
    String.join (l ++ [x]) = String.join l ++ x := by
  simp [String.join, List.foldl_append]

theorem joinSep_cons_cons (sep x y : String) (xs : List String) :
    joinSep sep (x :: y :: xs) = x ++ sep ++ joinSep sep (y :: xs) := rfl

theorem joinSep_replicate_length (sep s : String) (n : Nat) :
    (joinSep sep (List.replicate (n + 1) s)).length = (n + 1) * s.length + n * sep.length := by
  induction n with
  | zero => simp [joinSep]
  | succ n ih =>
      rw [List.replicate_succ]
      rw [show List.replicate (n + 1) s = s :: List.replicate n s from List.replicate_succ ..]
      rw [joinSep_cons_cons]
      rw [show (s :: List.replicate n s) = List.replicate (n + 1) s from
        (List.replicate_succ ..).symm]
      simp [String.length_append, ih]
      ring

/-- Loop invariant: accepted chunks and the overflow counter partition
the input: their counts always sum to the input length (plus what the
accumulators already held). -/
theorem truncLoop_count (rs : List String) :
    ∀ available chunks rem,
      (truncLoop rs available chunks rem).1.length + (truncLoop rs available chunks rem).2
        = chunks.length + rem + rs.length := by
  induction rs with
  | nil => intro a c r; simp [truncLoop]
  | cons x xs ih =>
      intro a c r
      simp only [truncLoop]
      split
      · rw [ih]; simp; omega
      · rw [ih]; simp; omega

/-- Loop invariant: the accepted chunks consume strictly less than the
availability (each acceptance requires strict inequality and subtracts
its size). -/
theorem truncLoop_sumLen_lt (rs : List String) :
    ∀ available chunks rem, 0 < available →
      sumLen (truncLoop rs available chunks rem).1 < sumLen chunks + available := by
  induction rs with
  | nil => intro a c r ha; simp only [truncLoop]; omega
  | cons x xs ih =>
      intro a c r ha
      simp only [truncLoop]
      split
      · next h =>
          have hrec := ih (a - (x ++ "\n").length) (c ++ [x ++ "\n"]) r (by omega)
          rw [sumLen_append] at hrec
          have hx : sumLen [x ++ "\n"] = (x ++ "\n").length := by simp [sumLen]
          omega
      · exact ih a c (r + 1) ha

/-- When a chunk does not fit the current availability, a run of equal
roles is wholly rejected: the loop only counts them. -/
theorem truncLoop_reject_replicate (s : String) (n : Nat) :
    ∀ available chunks rem, ¬ (s ++ "\n").length < available →
      truncLoop (List.replicate n s) available chunks rem = (chunks, rem + n) := by
  induction n with
  | zero => intro a c r _; simp [truncLoop]
  | succ n ih =>
      intro a c r h
      rw [List.replicate_succ]
      simp only [truncLoop, if_neg h]
      rw [ih a c (r + 1) h]
      simp
      omega

/-- When `n` chunks of the same role all fit (their total size is below
the availability), the loop accepts all of them in order. -/
theorem truncLoop_accept_replicate (s : String) (n : Nat) :
    ∀ available chunks rem, n * (s ++ "\n").length < available →
      truncLoop (List.replicate n s) available chunks rem
        = (chunks ++ List.replicate n (s ++ "\n"), rem) := by
  induction n with
  | zero => intro a c r _; simp [truncLoop]
  | succ n ih =>
      intro a c r h
      have hexp : (n + 1) * (s ++ "\n").length = n * (s ++ "\n").length + (s ++ "\n").length := by
        ring
      have hsize : (s ++ "\n").length < a := by omega
      rw [List.replicate_succ]
      simp only [truncLoop, if_pos hsize]
      rw [ih (a - (s ++ "\n").length) (c ++ [s ++ "\n"]) r (by omega)]
      rw [List.append_assoc]
      rw [show [s ++ "\n"] ++ List.replicate n (s ++ "\n") = List.replicate (n + 1) (s ++ "\n")
        from (List.replicate_succ ..).symm]

/-- Loop invariant: whatever the loop appends beyond the incoming
accumulator is an order-preserving selection of the newline-terminated
input items. -/
theorem truncLoop_chunks_sublist (rs : List String) :
    ∀ available chunks rem, ∃ sel,
      (truncLoop rs available chunks rem).1 = chunks ++ sel
      ∧ sel.Sublist (rs.map fun r => r ++ "\n") := by
  induction rs with
  | nil => intro a c r; exact ⟨[], by simp [truncLoop], by simp⟩
  | cons x xs ih =>
      intro a c r
      simp only [truncLoop]
      split
      · obtain ⟨sel, h1, h2⟩ := ih (a - (x ++ "\n").length) (c ++ [x ++ "\n"]) r
        refine ⟨(x ++ "\n") :: sel, ?_, ?_⟩
        · rw [h1, List.append_assoc]
          rfl
        · simpa using h2.cons₂ (x ++ "\n")
      · obtain ⟨sel, h1, h2⟩ := ih a c (r + 1)
        exact ⟨sel, h1, by simpa using h2.cons _⟩

/-- One unfolding step of the truncation loop. -/
theorem truncLoop_cons (r : String) (rs : List String) (available : Nat) (chunks : List String)
    (rem : Nat) :
    truncLoop (r :: rs) available chunks rem =
      if (r ++ "\n").length < available then
        truncLoop rs (available - (r ++ "\n").length) (chunks ++ [r ++ "\n"]) rem
      else
        truncLoop rs available chunks (rem + 1) := rfl

/-- The summary line is the 50-character template text plus the decimal
digits of the count. -/
theorem overflowLine_length (n : Nat) :
    (overflowLine n).length = 50 + (Nat.repr n).length := by
  simp only [overflowLine, String.length_append]
  have h1 : ("and " : String).length = 4 := by decide
  have h2 : (" more roles not displayed due to embed limits." : String).length = 46 := by decide
  have h3 : (toString n : String) = Nat.repr n := rfl
  rw [h3]
  omega

theorem overflowTemplate_length : overflowTemplate.length = 58 := by decide

/-! ## Claim theorems -/

/-- C3: for every non-empty role-name sequence whose `", "`-joined total
length is at most 4000 characters, `_format_roles` returns exactly the
plain `", "`-joined string of all items — no overflow summary line. -/
theorem formatRoles_fits_plain_join (roles : List String) (_hne : roles ≠ [])
    (hlen : (joinSep ", " roles).length ≤ 4000) :
    formatRolesList roles = joinSep ", " roles := by
  simp only [formatRolesList]
  rw [if_neg (by omega)]

/-- Witness for C3 at the concrete sequence `["a", "b"]`. -/
theorem formatRoles_fits_plain_join_witness :
    (["a", "b"] : List String) ≠ [] ∧ (joinSep ", " ["a", "b"]).length ≤ 4000
      ∧ formatRolesList ["a", "b"] = joinSep ", " ["a", "b"] :=
  ⟨by decide, by decide, formatRoles_fits_plain_join ["a", "b"] (by decide) (by decide)⟩

/-- C8: for a member whose only role is the implicit everyone role,
`_format_roles` returns the MISSING sentinel (modelled `none`), which is
distinct from the empty string. -/
theorem formatRoles_empty_sentinel (everyone : Role) :
    _format_roles [everyone] = none ∧ _format_roles [everyone] ≠ some "" := by
  constructor <;> simp [_format_roles, _get_roles]

/-- C10: the summary line is appended unconditionally once the truncation
branch is taken: 1001 roles named "ab" join to 4002 > 4000 characters,
yet every newline chunk fits the reserved budget, so the output carries
the full list and a summary line reporting 0 omitted roles. -/
theorem formatRoles_zero_overflow_line :
    (joinSep ", " c10Roles).length > 4000
    ∧ (truncLoop c10Roles (4000 - overflowTemplate.length) [] 0).2 = 0
    ∧ formatRolesList c10Roles = String.join (List.replicate 1001 "ab\n") ++ overflowLine 0 := by
  have hava : 4000 - overflowTemplate.length = 3942 := by rw [overflowTemplate_length]
  have hab : ("ab" ++ "\n" : String) = "ab\n" := rfl
  have habl : ("ab\n" : String).length = 3 := by decide
  have hab2 : ("ab" : String).length = 2 := by decide
  have hsep : (", " : String).length = 2 := by decide
  have hjoin : (joinSep ", " c10Roles).length = 4002 := by
    show (joinSep ", " (List.replicate (1000 + 1) "ab")).length = 4002
    rw [joinSep_replicate_length, hab2, hsep]
  have htrunc : truncLoop c10Roles 3942 [] 0 = (List.replicate 1001 "ab\n", 0) := by
    have h := truncLoop_accept_replicate "ab" 1001 3942 [] 0 (by rw [hab, habl]; norm_num)
    rw [hab, List.nil_append] at h
    exact h
  refine ⟨by omega, ?_, ?_⟩
  · rw [hava, htrunc]
  · simp only [formatRolesList]
    rw [if_pos (by omega), hava, htrunc]
    exact join_append_one _ _

/-- C1 counterexample: on `c1Roles` the joined length exceeds 4000, yet
the formatter's output is 4001 characters long — the reserved summary
length is taken from the template (eight placeholder characters), while
the final count 10^9 prints with ten digits. -/
theorem formatRoles_budget_overshoot :
    (joinSep ", " c1Roles).length > 4000 ∧ (formatRolesList c1Roles).length = 4001 := by
  have hava : 4000 - overflowTemplate.length = 3942 := by rw [overflowTemplate_length]
  have hbig : (String.mk (List.replicate 3940 'a')).length = 3940 := by
    rw [String.length_mk, List.length_replicate]
  have hnl : ("\n" : String).length = 1 := by decide
  have hchunk : (String.mk (List.replicate 3940 'a') ++ "\n").length = 3941 := by
    rw [String.length_append, hbig, hnl]
  have ha1 : ("a" : String).length = 1 := by decide
  have ha2 : ("a" ++ "\n" : String).length = 2 := by decide
  have hsep : (", " : String).length = 2 := by decide
  have hrepl : (1000000000 : Nat) = 999999999 + 1 := by norm_num
  have hjoin : (joinSep ", " c1Roles).length > 4000 := by
    show 4000 <
      (joinSep ", " (String.mk (List.replicate 3940 'a') :: List.replicate 1000000000 "a")).length
    rw [hrepl]
    rw [show List.replicate (999999999 + 1) "a" = "a" :: List.replicate 999999999 "a" from
      List.replicate_succ ..]
    rw [joinSep_cons_cons, String.length_append, String.length_append]
    rw [show ("a" :: List.replicate 999999999 "a") = List.replicate (999999999 + 1) "a" from
      (List.replicate_succ ..).symm]
    rw [joinSep_replicate_length, hbig, ha1, hsep]
    norm_num
  have htrunc : truncLoop c1Roles 3942 [] 0
      = ([String.mk (List.replicate 3940 'a') ++ "\n"], 1000000000) := by
    show truncLoop (String.mk (List.replicate 3940 'a') :: List.replicate 1000000000 "a") 3942 [] 0
      = _
    rw [truncLoop_cons]
    rw [if_pos (by rw [hchunk]; norm_num)]
    rw [hchunk, show (3942 - 3941 : Nat) = 1 from rfl, List.nil_append]
    rw [truncLoop_reject_replicate "a" 1000000000 1 _ 0 (by rw [ha2]; norm_num)]
  have hdig : (Nat.repr 1000000000).length = 10 := by decide
  refine ⟨hjoin, ?_⟩
  simp only [formatRolesList]
  rw [if_pos hjoin, hava, htrunc, join_length, sumLen_append]
  simp only [sumLen, List.map_cons, List.map_nil, List.sum_cons, List.sum_nil]
  rw [hchunk, overflowLine_length, hdig]
  norm_num

/-- C1 (amended): in the truncation branch the overflow count is exactly
the number of roles not appended, the output is the accepted chunks
followed by the summary line stating that count, and the output length
is at most 3991 plus the decimal digit count of the overflow count — in
particular at most 4000 whenever that count is below 10^9, the budget
overshooting only for a ten-or-more-digit count. -/
theorem formatRoles_overflow_bound (roles : List String)
    (hover : (joinSep ", " roles).length > 4000) :
    (truncLoop roles (4000 - overflowTemplate.length) [] 0).1.length
        + (truncLoop roles (4000 - overflowTemplate.length) [] 0).2 = roles.length
    ∧ formatRolesList roles
        = String.join ((truncLoop roles (4000 - overflowTemplate.length) [] 0).1
            ++ [overflowLine (truncLoop roles (4000 - overflowTemplate.length) [] 0).2])
    ∧ (formatRolesList roles).length
        ≤ 3991 + (Nat.repr (truncLoop roles (4000 - overflowTemplate.length) [] 0).2).length
    ∧ ((truncLoop roles (4000 - overflowTemplate.length) [] 0).2 < 1000000000 →
        (formatRolesList roles).length ≤ 4000) := by
  have hava : 4000 - overflowTemplate.length = 3942 := by rw [overflowTemplate_length]
  have hshape : formatRolesList roles
      = String.join ((truncLoop roles (4000 - overflowTemplate.length) [] 0).1
          ++ [overflowLine (truncLoop roles (4000 - overflowTemplate.length) [] 0).2]) := by
    simp only [formatRolesList]
    rw [if_pos hover]
  have hsum : sumLen (truncLoop roles (4000 - overflowTemplate.length) [] 0).1 < 3942 := by
    have h := truncLoop_sumLen_lt roles 3942 [] 0 (by norm_num)
    rw [hava]
    simpa [sumLen] using h
  have hlen : (formatRolesList roles).length
      ≤ 3991 + (Nat.repr (truncLoop roles (4000 - overflowTemplate.length) [] 0).2).length := by
    rw [hshape, join_length, sumLen_append]
    have hline : sumLen [overflowLine (truncLoop roles (4000 - overflowTemplate.length) [] 0).2]
        = 50 + (Nat.repr (truncLoop roles (4000 - overflowTemplate.length) [] 0).2).length := by
      simp [sumLen, overflowLine_length]
    omega
  refine ⟨?_, hshape, hlen, ?_⟩
  · have h := truncLoop_count roles (4000 - overflowTemplate.length) [] 0
    simpa using h
  · intro hsmall
    have hdig : (Nat.repr (truncLoop roles (4000 - overflowTemplate.length) [] 0).2).length ≤ 9 :=
      Nat.repr_length _ 9 (by norm_num) (by exact_mod_cast hsmall)
    omega

/-- Witness for C1 (amended) at a single 4500-character role. -/
theorem formatRoles_overflow_bound_witness :
    (joinSep ", " [String.mk (List.replicate 4500 'a')]).length > 4000
    ∧ ((truncLoop [String.mk (List.replicate 4500 'a')] (4000 - overflowTemplate.length) [] 0).1.length
        + (truncLoop [String.mk (List.replicate 4500 'a')] (4000 - overflowTemplate.length) [] 0).2
          = [String.mk (List.replicate 4500 'a')].length
      ∧ formatRolesList [String.mk (List.replicate 4500 'a')]
          = String.join
              ((truncLoop [String.mk (List.replicate 4500 'a')] (4000 - overflowTemplate.length) [] 0).1
                ++ [overflowLine
                    (truncLoop [String.mk (List.replicate 4500 'a')]
                      (4000 - overflowTemplate.length) [] 0).2])
      ∧ (formatRolesList [String.mk (List.replicate 4500 'a')]).length
          ≤ 3991 + (Nat.repr (truncLoop [String.mk (List.replicate 4500 'a')]
              (4000 - overflowTemplate.length) [] 0).2).length
      ∧ ((truncLoop [String.mk (List.replicate 4500 'a')]
            (4000 - overflowTemplate.length) [] 0).2 < 1000000000 →
          (formatRolesList [String.mk (List.replicate 4500 'a')]).length ≤ 4000)) := by
  have hw : (joinSep ", " [String.mk (List.replicate 4500 'a')]).length > 4000 := by
    show 4000 < (String.mk (List.replicate 4500 'a')).length
    rw [String.length_mk, List.length_replicate]
    norm_num
  exact ⟨hw, formatRoles_overflow_bound [String.mk (List.replicate 4500 'a')] hw⟩

/-- C4 counterexample: on `c4Roles` the truncation branch is taken, the
4000-character first role is rejected (overflow count 1), yet the later
one-character role is still appended — the included items are not a
prefix of the input: the second item's chunk is in the output while the
first item's chunk is not. -/
theorem formatRoles_not_prefix :
    (joinSep ", " c4Roles).length > 4000
    ∧ (truncLoop c4Roles (4000 - overflowTemplate.length) [] 0).1 = ["b\n"]
    ∧ (truncLoop c4Roles (4000 - overflowTemplate.length) [] 0).2 = 1
    ∧ "b\n" ∈ (truncLoop c4Roles (4000 - overflowTemplate.length) [] 0).1
    ∧ (String.mk (List.replicate 4000 'a') ++ "\n")
        ∉ (truncLoop c4Roles (4000 - overflowTemplate.length) [] 0).1
    ∧ formatRolesList c4Roles = "b\n" ++ overflowLine 1 := by
  have hava : 4000 - overflowTemplate.length = 3942 := by rw [overflowTemplate_length]
  have hA : (String.mk (List.replicate 4000 'a')).length = 4000 := by
    rw [String.length_mk, List.length_replicate]
  have hchunkA : (String.mk (List.replicate 4000 'a') ++ "\n").length = 4001 := by
    rw [String.length_append, hA]
    decide
  have hb : ("b" ++ "\n" : String) = "b\n" := rfl
  have hchunkB : ("b" ++ "\n" : String).length = 2 := by decide
  have hjoin : (joinSep ", " c4Roles).length = 4003 := by
    show (joinSep ", " [String.mk (List.replicate 4000 'a'), "b"]).length = 4003
    rw [joinSep_cons_cons, String.length_append, String.length_append, hA]
    decide
  have htrunc : truncLoop c4Roles (4000 - overflowTemplate.length) [] 0 = (["b\n"], 1) := by
    rw [hava]
    show truncLoop [String.mk (List.replicate 4000 'a'), "b"] 3942 [] 0 = _
    rw [truncLoop_cons, if_neg (by rw [hchunkA]; norm_num)]
    rw [truncLoop_cons, if_pos (by rw [hchunkB]; norm_num)]
    rw [hb, List.nil_append]
    rfl
  have hne : String.mk (List.replicate 4000 'a') ++ "\n" ≠ "b\n" := by
    intro h
    have hlen := congrArg String.length h
    rw [hchunkA] at hlen
    exact absurd hlen (by decide)
  refine ⟨by omega, by rw [htrunc], by rw [htrunc],
    by rw [htrunc]; exact List.mem_singleton.mpr rfl,
    by rw [htrunc]; intro hmem; exact hne (List.mem_singleton.mp hmem), ?_⟩
  simp only [formatRolesList]
  rw [if_pos (by omega), htrunc]
  rw [join_append_one]
  rfl

/-- C4 (amended): in the overflow case the included chunks are an
order-preserving subsequence (not necessarily a prefix) of the
newline-terminated input items — an item is appended exactly when its
chunk is shorter than the availability remaining at its turn, so a later
short item may be appended after an earlier longer one was rejected —
and the cumulative length of the included chunks stays strictly under
the 4000-character budget minus the reserved summary-template length. -/
theorem formatRoles_included_sublist (roles : List String)
    (hover : (joinSep ", " roles).length > 4000) :
    (truncLoop roles (4000 - overflowTemplate.length) [] 0).1.Sublist
        (roles.map fun r => r ++ "\n")
    ∧ sumLen (truncLoop roles (4000 - overflowTemplate.length) [] 0).1
        < 4000 - overflowTemplate.length
    ∧ formatRolesList roles
        = String.join ((truncLoop roles (4000 - overflowTemplate.length) [] 0).1
            ++ [overflowLine (truncLoop roles (4000 - overflowTemplate.length) [] 0).2]) := by
  have hava : 4000 - overflowTemplate.length = 3942 := by rw [overflowTemplate_length]
  refine ⟨?_, ?_, ?_⟩
  · obtain ⟨sel, h1, h2⟩ :=
      truncLoop_chunks_sublist roles (4000 - overflowTemplate.length) [] 0
    rw [h1, List.nil_append]
    exact h2
  · have h := truncLoop_sumLen_lt roles 3942 [] 0 (by norm_num)
    rw [hava]
    simpa [sumLen] using h
  · simp only [formatRolesList]
    rw [if_pos hover]

/-- Witness for C4 (amended) at a single 4100-character role. -/
theorem formatRoles_included_sublist_witness :
    (joinSep ", " [String.mk (List.replicate 4100 'a')]).length > 4000
    ∧ ((truncLoop [String.mk (List.replicate 4100 'a')] (4000 - overflowTemplate.length) [] 0).1.Sublist
          ([String.mk (List.replicate 4100 'a')].map fun r => r ++ "\n")
      ∧ sumLen (truncLoop [String.mk (List.replicate 4100 'a')]
            (4000 - overflowTemplate.length) [] 0).1 < 4000 - overflowTemplate.length
      ∧ formatRolesList [String.mk (List.replicate 4100 'a')]
          = String.join
              ((truncLoop [String.mk (List.replicate 4100 'a')]
                  (4000 - overflowTemplate.length) [] 0).1
                ++ [overflowLine (truncLoop [String.mk (List.replicate 4100 'a')]
                    (4000 - overflowTemplate.length) [] 0).2])) := by
  have hw : (joinSep ", " [String.mk (List.replicate 4100 'a')]).length > 4000 := by
    show 4000 < (String.mk (List.replicate 4100 'a')).length
    rw [String.length_mk, List.length_replicate]
    norm_num
  exact ⟨hw, formatRoles_included_sublist [String.mk (List.replicate 4100 'a')] hw⟩

/-- C2 counterexample: after a wrong-actor interaction on `c2State` the
denial is sent, but the component has not reached the terminal
timed-out shape: its control is still enabled and a follow-up
interaction by the original requester passes the check (so it is
dispatched, not rejected or ignored). -/
theorem interaction_check_not_terminal :
    (interaction_check c2State 2).1
        = some { content := "You're not the author of this message.", ephemeral := true }
    ∧ (interaction_check c2State 2).2.1 = false
    ∧ ((interaction_check c2State 2).2.2.children.all fun c => c.disabled) = false
    ∧ (interaction_check (interaction_check c2State 2).2.2 1).2.1 = true := by
  decide

/-- C2 (amended): an interaction by any actor other than the original
requester yields the ephemeral denial, fails the check (the select's
callback never runs for that interaction) and cancels the background
discovery; but the component does not transition to the terminal state:
its controls are left untouched and a subsequent interaction from the
original requester still passes the check. -/
theorem interaction_check_wrong_actor (s : UIViewState) (actor : Nat)
    (h : s.authorId ≠ actor) :
    interaction_check s actor
        = (some { content := "You're not the author of this message.", ephemeral := true },
           false, close s)
    ∧ (interaction_check s actor).2.2.children = s.children
    ∧ (interaction_check s actor).2.2.discoveryCancelled = true
    ∧ (interaction_check (interaction_check s actor).2.2 s.authorId).2.1 = true := by
  refine ⟨by simp [interaction_check, h], ?_, ?_, ?_⟩ <;>
    simp [interaction_check, close, h]

/-- Witness for C2 (amended) at `c2State` and actor 2. -/
theorem interaction_check_wrong_actor_witness :
    c2State.authorId ≠ 2
    ∧ (interaction_check c2State 2
          = (some { content := "You're not the author of this message.", ephemeral := true },
             false, close c2State)
      ∧ (interaction_check c2State 2).2.2.children = c2State.children
      ∧ (interaction_check c2State 2).2.2.discoveryCancelled = true
      ∧ (interaction_check (interaction_check c2State 2).2.2 c2State.authorId).2.1 = true) :=
  ⟨by decide, interaction_check_wrong_actor c2State 2 (by decide)⟩

/-- C5: the home embed is computed at most once per component instance:
a second `_make_embed` call returns exactly the payload and the state of
the first call, even when the member data and the collaborator results
have changed in between. -/
theorem make_embed_memoized (s : UIViewState) (f₁ f₂ : String → String)
    (d₁ d₂ : HomeData) :
    (_make_embed (_make_embed s f₁ d₁).2 f₂ d₂).1 = (_make_embed s f₁ d₁).1
    ∧ (_make_embed (_make_embed s f₁ d₁).2 f₂ d₂).2 = (_make_embed s f₁ d₁).2 := by
  cases hs : s.homeEmbed <;> simp [_make_embed, hs]

/-- C6: the option sequence only appends: it starts as
[Home, Avatar, Roles-when-the-target-has-roles], each discovery step
extends the previous list, and whenever both the guild avatar and the
banner are discovered the final list is the initial one followed by
[GuildAvatar, Banner] — GuildAvatar strictly before Banner, the two
appends being sequential within the one discovery task. -/
theorem options_append_only (cache : Cache) (memberRoles : List Role)
    (guildAvatar : Option String) (fetch : Except String FetchedUser) :
    initOptions cache memberRoles
        <+: releaseStep1 cache (initOptions cache memberRoles) guildAvatar
    ∧ releaseStep1 cache (initOptions cache memberRoles) guildAvatar
        <+: releaseOptions cache (initOptions cache memberRoles) guildAvatar fetch
    ∧ (guildAvatar.isSome = true → bannerPresent fetch = true →
        releaseOptions cache (initOptions cache memberRoles) guildAvatar fetch
          = initOptions cache memberRoles ++ [gavatarOption cache, bannerOption cache]) := by
  refine ⟨List.prefix_append _ _, ?_, ?_⟩
  · cases fetch with
    | ok fetched => exact List.prefix_append _ _
    | error e => exact List.prefix_refl _
  · intro hga hbanner
    cases fetch with
    | ok fetched =>
        have hb : fetched.banner.isSome = true := hbanner
        simp [releaseOptions, releaseStep1, hga, hb]
    | error e => exact absurd hbanner (by simp [bannerPresent])

/-- Witness for C6 at a roleless member, a present guild avatar and a
successful banner fetch. -/
theorem options_append_only_witness :
    (some "ga" : Option String).isSome = true
    ∧ bannerPresent (.ok { banner := some "b" }) = true
    ∧ (initOptions trivialCache []
          <+: releaseStep1 trivialCache (initOptions trivialCache []) (some "ga"))
    ∧ releaseOptions trivialCache (initOptions trivialCache []) (some "ga")
          (.ok { banner := some "b" })
        = initOptions trivialCache [] ++ [gavatarOption trivialCache, bannerOption trivialCache] := by
  have h := options_append_only trivialCache [] (some "ga") (.ok { banner := some "b" })
  exact ⟨rfl, rfl, h.1, h.2.2 rfl rfl⟩

/-- C7: when the fresh user fetch raises, the fire-and-forget discovery
task contains the failure: the Banner option is never added (the option
list stays exactly as the guild-avatar step left it), no error surfaces
to the user, and the component is not aborted. -/
theorem discovery_fetch_failure_swallowed (cache : Cache) (memberRoles : List Role)
    (guildAvatar : Option String) (e : String) :
    (runDiscoveryTask cache (initOptions cache memberRoles) guildAvatar (.error e)).1
        = releaseStep1 cache (initOptions cache memberRoles) guildAvatar
    ∧ bannerOption cache
        ∉ (runDiscoveryTask cache (initOptions cache memberRoles) guildAvatar (.error e)).1
    ∧ (runDiscoveryTask cache (initOptions cache memberRoles) guildAvatar (.error e)).2.1 = none
    ∧ (runDiscoveryTask cache (initOptions cache memberRoles) guildAvatar (.error e)).2.2
        = false := by
  refine ⟨rfl, ?_, rfl, rfl⟩
  intro hmem
  simp only [runDiscoveryTask, releaseOptions, releaseStep1, initOptions,
    List.mem_append, List.mem_cons, List.not_mem_nil, or_false] at hmem
  rcases hmem with (h | h) | h
  · rcases h with h | h
    · exact absurd (congrArg SelectOption.value h) (by simp [bannerOption, homeOption, avatarOption, rolesOption, gavatarOption])
    · exact absurd (congrArg SelectOption.value h) (by simp [bannerOption, homeOption, avatarOption, rolesOption, gavatarOption])
  · rcases Decidable.em ((_get_roles memberRoles).isSome = true) with hr | hr
    · rw [if_pos hr] at h
      rcases List.mem_singleton.mp h with h
      exact absurd (congrArg SelectOption.value h) (by simp [bannerOption, homeOption, avatarOption, rolesOption, gavatarOption])
    · rw [if_neg hr] at h
      exact absurd h (List.not_mem_nil _)
  · rcases Decidable.em (guildAvatar.isSome = true) with hg | hg
    · rw [if_pos hg] at h
      rcases List.mem_singleton.mp h with h
      exact absurd (congrArg SelectOption.value h) (by simp [bannerOption, homeOption, avatarOption, rolesOption, gavatarOption])
    · rw [if_neg hg] at h
      exact absurd h (List.not_mem_nil _)

/-- C9: on timeout every child carrying a `disabled` attribute ends up
disabled, the message edit is attempted exactly when the message was
set, nothing escapes `on_timeout` even when that edit fails with an
HTTPException (it is suppressed), and the discovery task is cancelled. -/
theorem on_timeout_cleanup (s : UIViewState) (edit : EditOutcome) :
    ((on_timeout s edit).1.children.all fun c => !c.hasDisabledAttr || c.disabled) = true
    ∧ (on_timeout s edit).2.1 = s.messageSet
    ∧ (on_timeout s edit).2.2 = none
    ∧ (on_timeout s edit).1.discoveryCancelled = true := by
  refine ⟨?_, rfl, ?_, rfl⟩
  · simp only [on_timeout, close, List.all_map]
    rw [List.all_eq_true]
    intro c _
    cases hc : c.hasDisabledAttr <;> simp [hc]
  · cases edit <;> simp [on_timeout, messageEdit]

end Info
